import Mathlib

/-!
Verification of the movie-catalog core of `src/main.py` (an offline movie
manager).  The Python source is shallowly embedded: JSON values become the
inductive `JValue`, Python floats become `ℚ`, Python exceptions become
`Except`/`Option`, and the mutable list of `Movie` dataclass instances
becomes a `List`.  Python's stable `sorted` is modelled by
`List.insertionSort`, which computes the same (unique) stable sort.

String conventions: Python `str.strip` is modelled by `pyStrip`
(ASCII whitespace), `str.lower` by mapping `Char.toLower` (ASCII case
folding), and Python string comparison — lexicographic on code points —
by `pyStrLe` (lexicographic on the underlying character lists).
-/

/-- A JSON-like value: the possible results of Python's `json.load` and the
payloads fed to `Movie.from_dict` (`src/main.py` lines 139-153). -/
inductive JValue where
  | jnull : JValue
  | jbool : Bool → JValue
  | jnum : ℚ → JValue
  | jstr : String → JValue
  | jarr : List JValue → JValue
  | jobj : List (String × JValue) → JValue

mutual

/-- Model of Python `repr` on a JSON-like value.  Exact rendering of
numbers differs from CPython (a rational is rendered `num/den` rather than
in decimal); no theorem below depends on the rendering of a non-string
value, only on `pyStr` being total and the identity on strings. -/
def pyRepr : JValue → String
  | .jnull => "None"
  | .jbool true => "True"
  | .jbool false => "False"
  | .jnum q => if q.den = 1 then toString q.num else toString q.num ++ "/" ++ toString q.den
  | .jstr s => "'" ++ s ++ "'"
  | .jarr vs => "[" ++ pyReprList vs ++ "]"
  | .jobj kvs => "\x7b" ++ pyReprPairs kvs ++ "\x7d"

/-- Comma-separated reprs of a list of values. -/
def pyReprList : List JValue → String
  | [] => ""
  | [v] => pyRepr v
  | v :: vs => pyRepr v ++ ", " ++ pyReprList vs

/-- Comma-separated reprs of the key/value pairs of an object. -/
def pyReprPairs : List (String × JValue) → String
  | [] => ""
  | [(k, v)] => "'" ++ k ++ "': " ++ pyRepr v
  | (k, v) :: kvs => "'" ++ k ++ "': " ++ pyRepr v ++ ", " ++ pyReprPairs kvs

end

/-- Model of Python `str()` on a JSON-like value: the identity on strings,
`repr`-like rendering otherwise.  Never raises. -/
def pyStr : JValue → String
  | .jstr s => s
  | v => pyRepr v

/-- Python truthiness of a JSON-like value (`None`, `False`, `0`, `""`,
`[]`, and an empty dict are falsy). -/
def pyTruthy : JValue → Bool
  | .jnull => false
  | .jbool b => b
  | .jnum q => !(decide (q = 0))
  | .jstr s => !(decide (s = ""))
  | .jarr vs => !vs.isEmpty
  | .jobj kvs => !kvs.isEmpty

/-- Python `a or b`: `a` when truthy, else `b`. -/
def pyOr (a b : JValue) : JValue := if pyTruthy a then a else b

/-- Python `payload.get(key, dflt)` on a dict modelled as an association
list (keys unique in any dict produced by `json.load`; lookup takes the
first match). -/
def jGet (p : List (String × JValue)) (key : String) (dflt : JValue) : JValue :=
  match p.find? (fun kv => decide (kv.1 = key)) with
  | some kv => kv.2
  | none => dflt

/-- The whitespace class of Python `str.strip()` (ASCII part; Python
also strips some Unicode spaces, which no theorem below exercises). -/
def pyWs (c : Char) : Bool :=
  c == ' ' || c == '\t' || c == '\n' || c == '\r' || c == '\x0b' || c == '\x0c'

/-- Model of Python `s.strip()`: drop leading and trailing whitespace. -/
def pyStrip (s : String) : String :=
  String.mk (((s.data.dropWhile pyWs).reverse.dropWhile pyWs).reverse)

/-- ASCII digit test, as used by Python's float literal grammar. -/
def pyDigit (c : Char) : Bool := 48 ≤ c.toNat && c.toNat ≤ 57

/-- Value of a list of ASCII digits. -/
def digitsVal (l : List Char) : Nat :=
  l.foldl (fun a c => 10 * a + (c.toNat - 48)) 0

/-- Parse the mantissa part of a Python float literal: `d+`, `d+.d*`,
`.d+` (no exponent, no sign). -/
def parseMant (l : List Char) : Option ℚ :=
  let ip := l.takeWhile pyDigit
  match l.dropWhile pyDigit with
  | [] => if ip.isEmpty then none else some ((digitsVal ip : ℚ))
  | '.' :: r2 =>
    let fp := r2.takeWhile pyDigit
    if (r2.dropWhile pyDigit).isEmpty then
      if ip.isEmpty && fp.isEmpty then none
      else some ((digitsVal ip : ℚ) + (digitsVal fp : ℚ) / (10 : ℚ) ^ fp.length)
    else none
  | _ => none

/-- Parse the exponent of a Python float literal: optional sign, then a
nonempty digit run. -/
def parseExpPart (l : List Char) : Option Int :=
  match l with
  | '+' :: r => if r.isEmpty || !(r.all pyDigit) then none else some ((digitsVal r : Int))
  | '-' :: r => if r.isEmpty || !(r.all pyDigit) then none else some (-(digitsVal r : Int))
  | r => if r.isEmpty || !(r.all pyDigit) then none else some ((digitsVal r : Int))

/-- Scale a mantissa by a (possibly negative) power of ten. -/
def applyExp (m : ℚ) (e : Int) : ℚ :=
  match e with
  | .ofNat n => m * (10 : ℚ) ^ n
  | .negSucc n => m / (10 : ℚ) ^ (n + 1)

/-- Exponent marker of a float literal. -/
def isExpChar (c : Char) : Bool := c == 'e' || c == 'E'

/-- Mantissa with optional exponent. -/
def parseMantExp (l : List Char) : Option ℚ :=
  let mant := l.takeWhile (fun c => !(isExpChar c))
  match l.dropWhile (fun c => !(isExpChar c)) with
  | [] => parseMant mant
  | _ :: er =>
    match parseMant mant, parseExpPart er with
    | some m, some e => some (applyExp m e)
    | _, _ => none

/-- Optional leading sign, then mantissa/exponent. -/
def parseSignedMant (l : List Char) : Option ℚ :=
  match l with
  | '+' :: r => parseMantExp r
  | '-' :: r => (parseMantExp r).map (fun q => -q)
  | r => parseMantExp r

/-- Model of Python `float(s)` on a string: strip surrounding whitespace,
then parse a float literal; `none` models the `ValueError` raised on a
non-numeric string.  (The special literals `nan`/`inf` have no rational
counterpart and are treated as non-numeric; no theorem below exercises
them.) -/
def parsePyFloat (s : String) : Option ℚ := parseSignedMant (pyStrip s).toList

/-- Model of Python `float(v)` on a JSON-like value: numbers and booleans
coerce, strings are parsed, everything else raises (`TypeError`). -/
def pyFloat : JValue → Except Unit ℚ
  | .jnum q => .ok q
  | .jbool b => .ok (if b then 1 else 0)
  | .jstr s =>
    match parsePyFloat s with
    | some q => .ok q
    | none => .error ()
  | _ => .error ()

/-- Model of Python `s.lower()` (ASCII case folding). -/
def pyLower (s : String) : String := String.mk (s.data.map Char.toLower)

/-- Whether `pat` is a prefix of `l`. -/
def listStarts (pat l : List Char) : Bool :=
  match pat, l with
  | [], _ => true
  | _ :: _, [] => false
  | p :: ps, c :: cs => p == c && listStarts ps cs

/-- Whether `pat` occurs as a contiguous sublist of `l`: Python's
substring test `pat in l`. -/
def listSub (pat l : List Char) : Bool :=
  listStarts pat l ||
    match l with
    | [] => false
    | _ :: cs => listSub pat cs

/-- Python `needle in hay` on strings. -/
def pySub (needle hay : String) : Bool := listSub needle.toList hay.toList

/-- The `Movie` dataclass of `src/main.py` lines 121-133, with its
declared defaults.  Python floats are modelled by `ℚ`. -/
structure Movie where
  title : String
  year : String := ""
  rating : ℚ := 0
  poster_url : String := ""
  watched : Bool := false
  favorite : Bool := false
  watchlist : Bool := true
  trailer_url : String := ""
  local_file : String := ""
  notes : String := ""
  created_at : String := ""
deriving DecidableEq

/-- `Movie.from_dict` (`src/main.py` lines 139-153) plus the
`__post_init__` hook (lines 135-137), which replaces an empty
`created_at` by the current UTC timestamp; the ambient clock is passed
explicitly as `now`.  The only field coercion that can raise is
`float(payload.get("rating", 0) or 0)`; the `Except` models that
`ValueError`/`TypeError`. -/
def fromDict (p : List (String × JValue)) (now : String) : Except Unit Movie :=
  match pyFloat (pyOr (jGet p "rating" (JValue.jnum 0)) (JValue.jnum 0)) with
  | .error e => .error e
  | .ok r =>
    let created := pyStrip (pyStr (jGet p "created_at" (JValue.jstr "")))
    .ok
      { title := pyStrip (pyStr (jGet p "title" (JValue.jstr "")))
        year := pyStrip (pyStr (jGet p "year" (JValue.jstr "")))
        rating := r
        poster_url := pyStrip (pyStr (jGet p "poster_url" (JValue.jstr "")))
        watched := pyTruthy (jGet p "watched" (JValue.jbool false))
        favorite := pyTruthy (jGet p "favorite" (JValue.jbool false))
        watchlist := pyTruthy (jGet p "watchlist" (JValue.jbool true))
        trailer_url := pyStrip (pyStr (jGet p "trailer_url" (JValue.jstr "")))
        local_file := pyStrip (pyStr (jGet p "local_file" (JValue.jstr "")))
        notes := pyStrip (pyStr (jGet p "notes" (JValue.jstr "")))
        created_at := if created = "" then now else created }

/-- The key/value pairs of `dataclasses.asdict(m)` in dataclass field
order, as serialized by `json.dump` in `_save_movies`
(`src/main.py` lines 201-204). -/
def movieFields (m : Movie) : List (String × JValue) :=
  [("title", JValue.jstr m.title), ("year", JValue.jstr m.year),
   ("rating", JValue.jnum m.rating), ("poster_url", JValue.jstr m.poster_url),
   ("watched", JValue.jbool m.watched), ("favorite", JValue.jbool m.favorite),
   ("watchlist", JValue.jbool m.watchlist), ("trailer_url", JValue.jstr m.trailer_url),
   ("local_file", JValue.jstr m.local_file), ("notes", JValue.jstr m.notes),
   ("created_at", JValue.jstr m.created_at)]

/-- The JSON object written for one movie by `_save_movies`. -/
def movieToJson (m : Movie) : JValue := JValue.jobj (movieFields m)

/-- The JSON document `_save_movies` writes: an array of the movie
objects in list order. -/
def saveMovies (ms : List Movie) : JValue := JValue.jarr (ms.map movieToJson)

/-- State of the data file as seen by `_load_movies`: absent, present but
not valid JSON (so `json.load` raises), or a parsed JSON value. -/
inductive FileState where
  | missing : FileState
  | invalid : FileState
  | hasJson : JValue → FileState

/-- `isinstance(item, dict)` plus access to the dict's entries. -/
def asObj : JValue → Option (List (String × JValue))
  | .jobj kvs => some kvs
  | _ => none

/-- Run a fallible map left to right, aborting at the first raised
exception — the evaluation of a Python list comprehension whose body can
raise. -/
def exceptMapList (f : α → Except Unit β) : List α → Except Unit (List β)
  | [] => .ok []
  | x :: xs =>
    match f x with
    | .error e => .error e
    | .ok y =>
      match exceptMapList f xs with
      | .error e => .error e
      | .ok ys => .ok (y :: ys)

/-- The comprehension of `_load_movies` line 197:
`[Movie.from_dict(item) for item in data if isinstance(item, dict)]`. -/
def fromDictAll (items : List JValue) (now : String) : Except Unit (List Movie) :=
  exceptMapList (fun d => fromDict d now) (items.filterMap asObj)

/-- `_load_movies` (`src/main.py` lines 189-199): empty list when the
file is missing; inside `try`, parse the file, return `[]` when the
top-level value is not a list, otherwise convert the dict elements;
`except Exception: return []` catches both the JSON parse error and any
error raised by `Movie.from_dict`. -/
def loadMovies (fs : FileState) (now : String) : List Movie :=
  match fs with
  | .missing => []
  | .invalid => []
  | .hasJson v =>
    match v with
    | .jarr items =>
      match fromDictAll items now with
      | .ok ms => ms
      | .error _ => []
    | _ => []

/-- The two field names `toggle_flag` is ever called with
(`src/main.py` lines 355-356). -/
inductive FlagField where
  | watched : FlagField
  | favorite : FlagField

/-- `toggle_flag` (`src/main.py` lines 366-371): flip the named boolean
via `setattr`; then, when the field is `watched` and the movie is now
watched, clear `watchlist`.  (The trailing `_save_movies`/`refresh`
calls touch no movie field.) -/
def toggleFlag (m : Movie) (field : FlagField) : Movie :=
  let m1 :=
    match field with
    | .watched => { m with watched := !m.watched }
    | .favorite => { m with favorite := !m.favorite }
  match field with
  | .watched => if m1.watched then { m1 with watchlist := false } else m1
  | .favorite => m1

/-- A Python `Movie` object: its identity (`ref`, the CPython object id)
together with its current field values.  Two list entries model the same
object exactly when their `ref`s coincide; `==` between movies is the
dataclass-generated field-by-field equality. -/
structure ObjMovie where
  ref : Nat
  val : Movie
deriving DecidableEq

/-- CPython's element comparison in `list.__contains__` / `list.remove`:
identical object or `==`-equal (dataclass field equality). -/
def pyEqTest (m x : ObjMovie) : Bool :=
  decide (x.ref = m.ref) || decide (x.val = m.val)

/-- Effect of Python `list.remove(m)` when a matching element exists:
drop the first match. -/
def pyListRemove (p : α → Bool) : List α → List α
  | [] => []
  | x :: xs => if p x then xs else x :: pyListRemove p xs

/-- `delete_movie` (`src/main.py` lines 373-377): `if movie in
self.movies: self.movies.remove(movie)`; the guard makes the absent case
a silent no-op. -/
def deleteMovie (movies : List ObjMovie) (m : ObjMovie) : List ObjMovie :=
  if movies.any (pyEqTest m) then pyListRemove (pyEqTest m) movies else movies

/-- The widget contents of the movie form when its Save button is
pressed: the seven text inputs and the three checkboxes
(`src/main.py` lines 414-438). -/
structure MovieForm where
  title : String
  year : String
  rating : String
  poster_url : String
  trailer_url : String
  local_file : String
  notes : String
  watched : Bool
  favorite : Bool
  watchlist : Bool

/-- The record written by the form's `save` closure (`src/main.py` lines
502-533), restricted to the saved record itself: `none` when the trimmed
title is empty (the closure returns without mutating anything);
otherwise the target — the edited movie, or a fresh `Movie(title=title)`
whose `__post_init__` stamps `created_at := now` — with every form field
assigned, `rating` parsed with `ValueError` falling back to `0.0` and
then clamped by `max(0.0, min(10.0, rating))`.  (The create branch also
appends the target to the collection; no claim concerns that append.) -/
def formSaveTarget (now : String) (f : MovieForm) (editing : Option Movie) : Option Movie :=
  let title := pyStrip f.title
  if title = "" then none
  else
    let ratingText := pyStrip f.rating
    let rating : ℚ :=
      if ratingText = "" then 0
      else
        match parsePyFloat ratingText with
        | some r => r
        | none => 0
    let target :=
      match editing with
      | some m => m
      | none => ({ title := title, created_at := now } : Movie)
    some
      { target with
        title := title
        year := pyStrip f.year
        rating := max 0 (min 10 rating)
        poster_url := pyStrip f.poster_url
        trailer_url := pyStrip f.trailer_url
        local_file := pyStrip f.local_file
        notes := pyStrip f.notes
        watched := f.watched
        favorite := f.favorite
        watchlist := f.watchlist }

/-- The search phase of `_filtered_movies` (`src/main.py` lines 274,
279-280): `search = text.strip().lower()`; when `search` is truthy keep
the movies with `search in m.title.lower() or search in m.notes.lower()`. -/
def searchFiltered (movies : List Movie) (searchInput : String) : List Movie :=
  let search := pyLower (pyStrip searchInput)
  if search = "" then movies
  else movies.filter (fun m => pySub search (pyLower m.title) || pySub search (pyLower m.notes))

/-- The filter phase of `_filtered_movies` (`src/main.py` lines
282-287): the spinner text selects a boolean field; any other text
(only "All" occurs) passes everything. -/
def applyFilter (items : List Movie) (filterValue : String) : List Movie :=
  if filterValue = "Watched" then items.filter (fun m => m.watched)
  else if filterValue = "Favorite" then items.filter (fun m => m.favorite)
  else if filterValue = "Watchlist" then items.filter (fun m => m.watchlist)
  else items

/-- The sort key of the Year branch: `m.year or "0"`. -/
def yearKey (m : Movie) : String := if m.year = "" then "0" else m.year

/-- Lexicographic comparison of code-point sequences: the Boolean test
behind Python string comparison. -/
def lexLeB : List Char → List Char → Bool
  | [], _ => true
  | _ :: _, [] => false
  | a :: as, b :: bs => if a < b then true else if b < a then false else lexLeB as bs

/-- Python string comparison `s <= t`: lexicographic on code points. -/
def pyStrLe (s t : String) : Prop := lexLeB s.data t.data = true

instance : DecidableRel pyStrLe :=
  fun s t => inferInstanceAs (Decidable (lexLeB s.data t.data = true))

/-- Title order: ascending on the lowercased title. -/
def titleLe (a b : Movie) : Prop := pyStrLe (pyLower a.title) (pyLower b.title)

/-- Year order used with `reverse=True`: descending on `year or "0"`. -/
def yearGe (a b : Movie) : Prop := pyStrLe (yearKey b) (yearKey a)

/-- Rating order used with `reverse=True`: descending on `rating`. -/
def ratingGe (a b : Movie) : Prop := b.rating ≤ a.rating

instance : DecidableRel titleLe :=
  fun a b => inferInstanceAs (Decidable (pyStrLe (pyLower a.title) (pyLower b.title)))

instance : DecidableRel yearGe :=
  fun a b => inferInstanceAs (Decidable (pyStrLe (yearKey b) (yearKey a)))

instance : DecidableRel ratingGe :=
  fun a b => inferInstanceAs (Decidable (b.rating ≤ a.rating))

/-- The sort phase of `_filtered_movies` (`src/main.py` lines 289-294).
Python's `sorted(items, key=k)` is the stable sort by `k`, and
`reverse=True` is the stable sort by the reversed key order; both are
modelled by `List.insertionSort`, which computes exactly the stable
sort for a total transitive relation. -/
def applySort (items : List Movie) (sortValue : String) : List Movie :=
  if sortValue = "Title" then items.insertionSort titleLe
  else if sortValue = "Year" then items.insertionSort yearGe
  else if sortValue = "Rating" then items.insertionSort ratingGe
  else items

/-- `_filtered_movies` (`src/main.py` lines 273-296): search, then
filter, then sort. -/
def filteredMovies (movies : List Movie) (searchInput filterValue sortValue : String) :
    List Movie :=
  applySort (applyFilter (searchFiltered movies searchInput) filterValue) sortValue

/-- The state `_filtered_movies` reads: the owned movie list and the
texts of the search box and the two spinners. -/
structure CatalogState where
  movies : List Movie
  searchInput : String
  filterValue : String
  sortValue : String

/-- `_filtered_movies` as a state transformer: the method reads
`self.movies` and the widget texts, builds fresh lists (comprehensions
and `sorted`), and contains no assignment to any state component, so the
resulting state is the input state. -/
def queryApp (s : CatalogState) : List Movie × CatalogState :=
  (filteredMovies s.movies s.searchInput s.filterValue s.sortValue, s)

/-- Whether a fallible computation succeeded. -/
def exceptOk : Except Unit α → Bool
  | .ok _ => true
  | .error _ => false

/-- A movie whose title carries surrounding whitespace (constructible
directly: the dataclass constructor does not strip). -/
def exPadded : Movie := { title := " x ", created_at := "t" }

/-- A fully trimmed movie. -/
def exZeta : Movie := { title := "Zeta", created_at := "t" }

/-- A movie with an empty year. -/
def exYearEmpty : Movie := { title := "E", year := "", created_at := "t" }

/-- A movie whose year is the string "0". -/
def exYearZero : Movie := { title := "Z", year := "0", created_at := "t" }

/-- Field values shared by two distinct movie objects. -/
def exDup : Movie := { title := "Dup", created_at := "t" }

/-- First object holding `exDup`'s values. -/
def exObjA : ObjMovie := { ref := 0, val := exDup }

/-- Second, distinct object holding the same values. -/
def exObjB : ObjMovie := { ref := 1, val := exDup }

/-- An object value-distinct from `exDup`. -/
def exObjC : ObjMovie := { ref := 2, val := exZeta }

/-- An existing movie being edited. -/
def exOld : Movie := { title := "Old", created_at := "t" }

/-- Form state with both the watched and the watchlist checkboxes
active. -/
def exFormBoth : MovieForm :=
  { title := "Old", year := "", rating := "", poster_url := "", trailer_url := "",
    local_file := "", notes := "", watched := true, favorite := false, watchlist := true }

/-- The record `save` produces from `exFormBoth` applied to `exOld`. -/
def exSaved : Movie :=
  { title := "Old", year := "", rating := 0, poster_url := "", watched := true,
    favorite := false, watchlist := true, trailer_url := "", local_file := "",
    notes := "", created_at := "t" }

/-- A movie that is currently watched. -/
def exWatched : Movie := { title := "W", watched := true, created_at := "t" }

/-- A catalog state used to instantiate the query theorems. -/
def exState : CatalogState :=
  { movies := [exZeta], searchInput := "", filterValue := "All", sortValue := "Title" }

/-- Lowercasing produces the empty string only from the empty string. -/
theorem pyLower_eq_empty {s : String} : pyLower s = "" ↔ s = "" := by
  constructor
  · intro h
    have h2 : s.data.map Char.toLower = [] := congrArg String.data h
    have h3 : s.data = [] := List.map_eq_nil_iff.mp h2
    cases s
    cases h3
    rfl
  · intro h
    subst h
    rfl

/-- Reflexivity of the lexicographic comparison. -/
theorem lexLeB_refl (l : List Char) : lexLeB l l = true := by
  induction l with
  | nil => rfl
  | cons x xs ih => simp [lexLeB, lt_irrefl, ih]

/-- Python string comparison is reflexive. -/
theorem pyStrLe_refl (s : String) : pyStrLe s s := lexLeB_refl s.data

/-- Totality of the lexicographic comparison. -/
theorem lexLeB_total (a : List Char) : ∀ b, lexLeB a b = true ∨ lexLeB b a = true := by
  induction a with
  | nil => intro b; left; rfl
  | cons x xs ih =>
    intro b
    cases b with
    | nil => right; rfl
    | cons y ys =>
      rcases lt_trichotomy x y with h | h | h
      · left; simp [lexLeB, h]
      · subst h
        rcases ih ys with h2 | h2
        · left; simp [lexLeB, lt_irrefl, h2]
        · right; simp [lexLeB, lt_irrefl, h2]
      · right; simp [lexLeB, h]

/-- Transitivity of the lexicographic comparison. -/
theorem lexLeB_trans (a : List Char) :
    ∀ b c, lexLeB a b = true → lexLeB b c = true → lexLeB a c = true := by
  induction a with
  | nil => intro b c h1 h2; rfl
  | cons x xs ih =>
    intro b c h1 h2
    cases b with
    | nil => exact absurd h1 (by simp [lexLeB])
    | cons y ys =>
      cases c with
      | nil => exact absurd h2 (by simp [lexLeB])
      | cons z zs =>
        rcases lt_trichotomy x y with hxy | hxy | hxy
        · rcases lt_trichotomy y z with hyz | hyz | hyz
          · simp [lexLeB, lt_trans hxy hyz]
          · subst hyz; simp [lexLeB, hxy]
          · exact absurd h2 (by simp [lexLeB, hyz, lt_asymm hyz])
        · subst hxy
          have h1x : lexLeB xs ys = true := by simpa [lexLeB, lt_irrefl] using h1
          rcases lt_trichotomy x z with hxz | hxz | hxz
          · simp [lexLeB, hxz]
          · subst hxz
            have h2x : lexLeB ys zs = true := by simpa [lexLeB, lt_irrefl] using h2
            simp [lexLeB, lt_irrefl, ih ys zs h1x h2x]
          · exact absurd h2 (by simp [lexLeB, hxz, lt_asymm hxz])
        · exact absurd h1 (by simp [lexLeB, hxy, lt_asymm hxy])

section StableSortLemmas

variable {α : Type} (r : α → α → Prop) [DecidableRel r]

/-- Inserting an element all tie-class members are `r`-above goes in
front of the whole class: the filtered view gains `x` at the head. -/
theorem orderedInsert_filter_pos (p : α → Bool) (x : α) (hx : p x = true)
    (hall : ∀ b, p b = true → r x b) (l : List α) :
    (List.orderedInsert r x l).filter p = x :: l.filter p := by
  induction l with
  | nil => simp [List.orderedInsert, hx]
  | cons y ys ih =>
    by_cases hr : r x y
    · simp [List.orderedInsert, hr, List.filter_cons, hx]
    · have hpy : p y = false := by
        cases hpy : p y with
        | false => rfl
        | true => exact absurd (hall y hpy) hr
      simp [List.orderedInsert, hr, List.filter_cons, hpy, ih]

/-- Inserting an element outside the tie class leaves the filtered view
unchanged. -/
theorem orderedInsert_filter_neg (p : α → Bool) (x : α) (hx : p x = false) (l : List α) :
    (List.orderedInsert r x l).filter p = l.filter p := by
  induction l with
  | nil => simp [List.orderedInsert, hx]
  | cons y ys ih =>
    by_cases hr : r x y
    · simp [List.orderedInsert, hr, List.filter_cons, hx]
    · simp [List.orderedInsert, hr, List.filter_cons, ih]

/-- Stability of insertion sort: for any class of mutually tied elements
(`p` implies the relation holds both ways inside the class), sorting
preserves the original relative order of the class — its filtered view
is unchanged. -/
theorem insertionSort_filter (p : α → Bool)
    (htie : ∀ a b, p a = true → p b = true → r a b) (l : List α) :
    (l.insertionSort r).filter p = l.filter p := by
  induction l with
  | nil => rfl
  | cons x xs ih =>
    cases hx : p x with
    | true =>
      rw [List.insertionSort,
        orderedInsert_filter_pos r p x hx (fun b hb => htie x b hx hb), ih]
      simp [List.filter_cons, hx]
    | false =>
      rw [List.insertionSort, orderedInsert_filter_neg r p x hx, ih]
      simp [List.filter_cons, hx]

end StableSortLemmas

/-- A run of successful conversions maps to the converted list. -/
theorem exceptMapList_forall2 {f : α → Except Unit β} {l : List α} {r : List β}
    (h : List.Forall₂ (fun a b => f a = Except.ok b) l r) :
    exceptMapList f l = Except.ok r := by
  induction h with
  | nil => rfl
  | cons ha _ ih => simp [exceptMapList, ha, ih]

/-- One failing conversion aborts the whole run. -/
theorem exceptMapList_error {f : α → Except Unit β} {l : List α}
    (h : ∃ a ∈ l, exceptOk (f a) = false) :
    exceptMapList f l = Except.error () := by
  induction l with
  | nil => exact absurd h (by simp)
  | cons x xs ih =>
    obtain ⟨a, ha, hfa⟩ := h
    rcases List.mem_cons.mp ha with rfl | hmem
    · cases hfx : f a with
      | error e => simp [exceptMapList, hfx]
      | ok y => rw [hfx] at hfa; exact absurd hfa (by simp [exceptOk])
    · cases hfx : f x with
      | error e => simp [exceptMapList, hfx]
      | ok y => simp [exceptMapList, hfx, ih ⟨a, hmem, hfa⟩]

/-- Python's `list.remove` drops exactly the first matching element. -/
theorem pyListRemove_eq_eraseP (p : α → Bool) (l : List α) :
    pyListRemove p l = l.eraseP p := by
  induction l with
  | nil => rfl
  | cons x xs ih =>
    by_cases hx : p x
    · simp [pyListRemove, List.eraseP_cons, hx]
    · simp [pyListRemove, List.eraseP_cons, hx, ih]

/-- Erasing with a predicate nothing satisfies is the identity. -/
theorem eraseP_no_match (p : α → Bool) (l : List α) (h : ∀ a ∈ l, p a = false) :
    l.eraseP p = l := by
  induction l with
  | nil => rfl
  | cons x xs ih =>
    have hx : p x = false := h x (List.mem_cons_self x xs)
    simp [List.eraseP_cons, hx, ih (fun a ha => h a (List.mem_cons_of_mem x ha))]

/-- `from_dict` inverts `asdict` on a movie whose text fields carry no
surrounding whitespace and whose `created_at` is nonempty. -/
theorem fromDict_movieFields (m : Movie) (now : String)
    (h : pyStrip m.title = m.title ∧ pyStrip m.year = m.year ∧
      pyStrip m.poster_url = m.poster_url ∧ pyStrip m.trailer_url = m.trailer_url ∧
      pyStrip m.local_file = m.local_file ∧ pyStrip m.notes = m.notes ∧
      pyStrip m.created_at = m.created_at ∧ m.created_at ≠ "") :
    fromDict (movieFields m) now = Except.ok m := by
  obtain ⟨ht, hy, hp, htr, hl, hn, hc, hcne⟩ := h
  have hfloat :
      pyFloat (pyOr (jGet (movieFields m) "rating" (JValue.jnum 0)) (JValue.jnum 0)) =
        Except.ok m.rating := by
    have hr : jGet (movieFields m) "rating" (JValue.jnum 0) = JValue.jnum m.rating := rfl
    rw [hr]
    by_cases h0 : m.rating = 0
    · simp [pyOr, pyTruthy, pyFloat, h0]
    · simp [pyOr, pyTruthy, pyFloat, h0]
  have e1 : jGet (movieFields m) "title" (JValue.jstr "") = JValue.jstr m.title := rfl
  have e2 : jGet (movieFields m) "year" (JValue.jstr "") = JValue.jstr m.year := rfl
  have e3 : jGet (movieFields m) "poster_url" (JValue.jstr "") = JValue.jstr m.poster_url := rfl
  have e4 : jGet (movieFields m) "watched" (JValue.jbool false) = JValue.jbool m.watched := rfl
  have e5 : jGet (movieFields m) "favorite" (JValue.jbool false) = JValue.jbool m.favorite := rfl
  have e6 : jGet (movieFields m) "watchlist" (JValue.jbool true) = JValue.jbool m.watchlist := rfl
  have e7 : jGet (movieFields m) "trailer_url" (JValue.jstr "") = JValue.jstr m.trailer_url := rfl
  have e8 : jGet (movieFields m) "local_file" (JValue.jstr "") = JValue.jstr m.local_file := rfl
  have e9 : jGet (movieFields m) "notes" (JValue.jstr "") = JValue.jstr m.notes := rfl
  have e10 : jGet (movieFields m) "created_at" (JValue.jstr "") = JValue.jstr m.created_at := rfl
  rw [fromDict, hfloat]
  rw [e1, e2, e3, e4, e5, e6, e7, e8, e9, e10]
  simp only [pyStr, pyTruthy, ht, hy, hp, htr, hl, hn, hc]
  rw [if_neg hcne]

/-- Serializing a list of trimmed movies and re-reading it recovers the
same list elementwise. -/
theorem fromDictAll_movieToJson (ms : List Movie) (now : String)
    (h : ∀ m ∈ ms, pyStrip m.title = m.title ∧ pyStrip m.year = m.year ∧
      pyStrip m.poster_url = m.poster_url ∧ pyStrip m.trailer_url = m.trailer_url ∧
      pyStrip m.local_file = m.local_file ∧ pyStrip m.notes = m.notes ∧
      pyStrip m.created_at = m.created_at ∧ m.created_at ≠ "") :
    fromDictAll (ms.map movieToJson) now = Except.ok ms := by
  induction ms with
  | nil => rfl
  | cons m tl ih =>
    have hm := h m (List.mem_cons_self m tl)
    have htl := ih (fun x hx => h x (List.mem_cons_of_mem m hx))
    have hobj : asObj (movieToJson m) = some (movieFields m) := rfl
    simp only [fromDictAll, List.map_cons, List.filterMap_cons, hobj] at htl ⊢
    simp only [List.filterMap_map] at htl
    simp [exceptMapList, fromDict_movieFields m now hm, htl]


/-- Counterexample to C1: on the payload with rating value the string
"abc" — a truthy, non-numeric value — `float` raises, so `from_dict`
raises a `ValueError` instead of defaulting the rating to 0. -/
theorem fromDict_raises_on_nonnumeric_rating :
    fromDict [("rating", JValue.jstr "abc")] "T" = Except.error () := by
  rfl

/-- C1 (amended): `from_dict` succeeds exactly when Python `float`
accepts the (truthiness-defaulted) rating value; in particular it
succeeds with rating 0 whenever the rating entry is absent or falsy.  A
truthy rating value that `float` rejects makes `from_dict` raise. -/
theorem fromDict_leniency_amended (p : List (String × JValue)) (now : String) :
    (exceptOk (fromDict p now) =
      exceptOk (pyFloat (pyOr (jGet p "rating" (JValue.jnum 0)) (JValue.jnum 0)))) ∧
    (pyTruthy (jGet p "rating" (JValue.jnum 0)) = false →
      (fromDict p now).map Movie.rating = Except.ok 0) := by
  constructor
  · cases h : pyFloat (pyOr (jGet p "rating" (JValue.jnum 0)) (JValue.jnum 0)) with
    | error e => simp [fromDict, h, exceptOk]
    | ok r => simp [fromDict, h, exceptOk]
  · intro hfalse
    have hor : pyOr (jGet p "rating" (JValue.jnum 0)) (JValue.jnum 0) = JValue.jnum 0 := by
      simp [pyOr, hfalse]
    have hfl : pyFloat (pyOr (jGet p "rating" (JValue.jnum 0)) (JValue.jnum 0)) =
        Except.ok 0 := by
      rw [hor]; rfl
    rw [fromDict, hfl]
    rfl

/-- Witness for the amended C1 theorem: a payload without a rating key
yields a record with rating 0. -/
theorem fromDict_leniency_amended_witness :
    (fromDict [("title", JValue.jstr "A")] "T").map Movie.rating = Except.ok 0 :=
  (fromDict_leniency_amended [("title", JValue.jstr "A")] "T").2 (by rfl)

/-- Counterexample to C2: `from_dict` performs no clamping — a payload
rating of 55 yields a record whose rating is 55, outside [0, 10]. -/
theorem fromDict_does_not_clamp :
    (fromDict [("rating", JValue.jnum 55)] "T").map Movie.rating = Except.ok 55 ∧
    ¬ ((55 : ℚ) ≤ 10) := by
  constructor
  · rfl
  · norm_num

/-- C2 (amended): after the movie form's save operation the rating lies
in [0, 10]: a parsed rating is clamped by `max(0.0, min(10.0, r))` and
an unparsable rating text coerces to 0.  (`from_dict` itself does not
clamp.) -/
theorem formSave_rating_clamped (now : String) (f : MovieForm) (editing : Option Movie)
    (m' : Movie) (h : formSaveTarget now f editing = some m') :
    (0 ≤ m'.rating ∧ m'.rating ≤ 10) ∧
    (parsePyFloat (pyStrip f.rating) = none → m'.rating = 0) ∧
    (∀ q, parsePyFloat (pyStrip f.rating) = some q → m'.rating = max 0 (min 10 q)) := by
  by_cases ht : pyStrip f.title = ""
  · simp [formSaveTarget, ht] at h
  · simp only [formSaveTarget, ht, if_neg, ite_false] at h
    obtain rfl : _ = m' := Option.some.inj h
    refine ⟨⟨le_max_left 0 _, max_le (by norm_num) (min_le_left _ _)⟩, ?_, ?_⟩
    · intro hnone
      by_cases he : pyStrip f.rating = ""
      · simp [he]
      · simp [he, hnone]
    · intro q hsome
      by_cases he : pyStrip f.rating = ""
      · rw [he] at hsome
        have hempty : parsePyFloat "" = none := rfl
        rw [hempty] at hsome
        exact Option.noConfusion hsome
      · simp [he, hsome]

/-- Witness for the amended C2 theorem: saving `exFormBoth` over `exOld`
produces a rating inside the interval. -/
theorem formSave_rating_clamped_witness :
    0 ≤ exSaved.rating ∧ exSaved.rating ≤ 10 :=
  (formSave_rating_clamped "t" exFormBoth (some exOld) exSaved (by rfl)).1

/-- Counterexample to C3: editing `exOld` with the watched checkbox and
the watchlist checkbox both active saves a record with `watched = true`
and `watchlist = true` — the form's save path never re-applies the
`watched implies not-watchlist` rule. -/
theorem formSave_keeps_watchlist_with_watched :
    (formSaveTarget "t" exFormBoth (some exOld)).map Movie.watched = some true ∧
    (formSaveTarget "t" exFormBoth (some exOld)).map Movie.watchlist = some true := by
  exact ⟨rfl, rfl⟩

/-- C3 (amended): toggling `watched` to true via `toggle_flag` does
clear `watchlist`; the movie form's update path instead sets `watched`
and `watchlist` independently from their checkboxes, so a watched-true
save keeps whatever the watchlist checkbox holds. -/
theorem watched_watchlist_amended (m m0 m' : Movie) (now : String) (f : MovieForm) :
    ((toggleFlag m FlagField.watched).watched = true →
      (toggleFlag m FlagField.watched).watchlist = false) ∧
    (formSaveTarget now f (some m0) = some m' →
      m'.watched = f.watched ∧ m'.watchlist = f.watchlist) := by
  constructor
  · intro hw
    by_cases h : m.watched
    · simp [toggleFlag, h] at hw
    · simp [toggleFlag, h]
  · intro h
    by_cases ht : pyStrip f.title = ""
    · simp [formSaveTarget, ht] at h
    · simp only [formSaveTarget, ht, if_neg, ite_false] at h
      obtain rfl : _ = m' := Option.some.inj h
      exact ⟨rfl, rfl⟩

/-- Witness for the amended C3 theorem: both branches at concrete
inputs. -/
theorem watched_watchlist_amended_witness :
    (toggleFlag exOld FlagField.watched).watchlist = false ∧ exSaved.watched = exFormBoth.watched :=
  ⟨(watched_watchlist_amended exOld exOld exSaved "t" exFormBoth).1 (by rfl),
    ((watched_watchlist_amended exOld exOld exSaved "t" exFormBoth).2 (by rfl)).1⟩

/-- Counterexample to C4: a movie whose title carries surrounding
whitespace does not round-trip — `from_dict` strips it on reload. -/
theorem round_trip_strips_fields :
    loadMovies (FileState.hasJson (saveMovies [exPadded])) "N" ≠ [exPadded] := by
  decide

/-- C4 (amended): save followed by load reproduces the collection —
same records, same field values, same order — provided every record's
text fields are already trimmed and its `created_at` is nonempty (true
of every record the application itself constructs). -/
theorem save_load_round_trip (ms : List Movie) (now : String)
    (h : ∀ m ∈ ms, pyStrip m.title = m.title ∧ pyStrip m.year = m.year ∧
      pyStrip m.poster_url = m.poster_url ∧ pyStrip m.trailer_url = m.trailer_url ∧
      pyStrip m.local_file = m.local_file ∧ pyStrip m.notes = m.notes ∧
      pyStrip m.created_at = m.created_at ∧ m.created_at ≠ "") :
    loadMovies (FileState.hasJson (saveMovies ms)) now = ms := by
  simp [loadMovies, saveMovies, fromDictAll_movieToJson ms now h]

/-- Witness for the amended C4 theorem at a concrete one-element
collection. -/
theorem save_load_round_trip_witness :
    loadMovies (FileState.hasJson (saveMovies [exZeta])) "N" = [exZeta] :=
  save_load_round_trip [exZeta] "N" (by decide)

/-- Counterexample to C5: on a list whose first mapping element has a
truthy non-numeric rating, `from_dict` raises inside the comprehension
and the `except` clause returns the empty collection — the other
mapping element is not recovered. -/
theorem load_discards_all_on_bad_element :
    loadMovies (FileState.hasJson (JValue.jarr
      [JValue.jobj [("rating", JValue.jstr "abc")],
       JValue.jobj [("title", JValue.jstr "x")]])) "T" = [] ∧
    (List.filterMap asObj
      [JValue.jobj [("rating", JValue.jstr "abc")],
       JValue.jobj [("title", JValue.jstr "x")]]).length = 2 := by
  exact ⟨rfl, rfl⟩

/-- C5 (amended): `load` never raises: a missing file, an unparsable
file, and a non-list top-level value all give the empty collection;
when every mapping element converts, non-mapping elements are discarded
and the mapping elements are recovered in order via `from_dict`; when
any mapping element makes `from_dict` raise, the whole load degrades to
the empty collection. -/
theorem loadMovies_lenient_amended (now : String) (v : JValue) (items : List JValue)
    (ms : List Movie) :
    loadMovies FileState.missing now = [] ∧
    loadMovies FileState.invalid now = [] ∧
    ((∀ l, v ≠ JValue.jarr l) → loadMovies (FileState.hasJson v) now = []) ∧
    (List.Forall₂ (fun d m => fromDict d now = Except.ok m) (items.filterMap asObj) ms →
      loadMovies (FileState.hasJson (JValue.jarr items)) now = ms) ∧
    ((∃ d ∈ items.filterMap asObj, exceptOk (fromDict d now) = false) →
      loadMovies (FileState.hasJson (JValue.jarr items)) now = []) := by
  refine ⟨rfl, rfl, ?_, ?_, ?_⟩
  · intro hv
    cases v with
    | jarr l => exact absurd rfl (hv l)
    | jnull => rfl
    | jbool b => rfl
    | jnum q => rfl
    | jstr s => rfl
    | jobj kvs => rfl
  · intro hconv
    have : fromDictAll items now = Except.ok ms := exceptMapList_forall2 hconv
    simp [loadMovies, this]
  · intro hbad
    have : fromDictAll items now = Except.error () := exceptMapList_error hbad
    simp [loadMovies, this]

/-- Witness for the amended C5 theorem: a JSON string at the top level
loads as empty, and a list with a junk element plus a good mapping
recovers the mapping. -/
theorem loadMovies_lenient_amended_witness :
    loadMovies (FileState.hasJson (JValue.jstr "not a list")) "T" = [] ∧
    loadMovies (FileState.hasJson (JValue.jarr [JValue.jstr "junk",
      JValue.jobj [("title", JValue.jstr "A"), ("created_at", JValue.jstr "t")]])) "T" =
      [{ title := "A", created_at := "t" }] :=
  ⟨(loadMovies_lenient_amended "T" (JValue.jstr "not a list") [] []).2.2.1
      (fun _ h => JValue.noConfusion h),
    (loadMovies_lenient_amended "T" JValue.jnull
        [JValue.jstr "junk",
          JValue.jobj [("title", JValue.jstr "A"), ("created_at", JValue.jstr "t")]]
        [{ title := "A", created_at := "t" }]).2.2.2.1
      (List.Forall₂.cons (by rfl) List.Forall₂.nil)⟩

/-- Lowercasing the empty string gives the empty string. -/
theorem pyLower_empty : pyLower "" = "" := rfl

/-- Counterexample to C6: the non-empty search text " zeta " keeps the
record titled "Zeta" although neither its title nor its notes contains
" zeta " as a case-insensitive substring — the code matches against the
stripped search text, not the search text itself. -/
theorem search_not_raw_substring :
    filteredMovies [exZeta] " zeta " "All" "Title" = [exZeta] ∧
    pySub (pyLower " zeta ") (pyLower exZeta.title) = false ∧
    pySub (pyLower " zeta ") (pyLower exZeta.notes) = false := by
  refine ⟨by decide, by decide, by decide⟩

/-- C6 (amended): with filter "All" and sort "Title", a search text that
strips to the empty string matches everything and the result is all the
records in ascending case-insensitive title order; a search text with
non-whitespace content keeps exactly the records whose lowercased title
or notes contains the stripped, lowercased search text. -/
theorem query_search_amended (ms : List Movie) (s : String) :
    (pyStrip s = "" →
      (filteredMovies ms s "All" "Title").Perm ms ∧
      List.Sorted titleLe (filteredMovies ms s "All" "Title")) ∧
    (pyStrip s ≠ "" → ∀ m, m ∈ filteredMovies ms s "All" "Title" ↔
      (m ∈ ms ∧ (pySub (pyLower (pyStrip s)) (pyLower m.title) ||
        pySub (pyLower (pyStrip s)) (pyLower m.notes)) = true)) := by
  constructor
  · intro hs
    have hsf : searchFiltered ms s = ms := by
      simp [searchFiltered, hs, pyLower_empty]
    have hfm : filteredMovies ms s "All" "Title" = ms.insertionSort titleLe := by
      unfold filteredMovies
      rw [hsf]
      rfl
    rw [hfm]
    haveI : IsTotal Movie titleLe := ⟨fun a b => lexLeB_total _ _⟩
    haveI : IsTrans Movie titleLe := ⟨fun a b c h1 h2 => lexLeB_trans _ _ _ h1 h2⟩
    exact ⟨List.perm_insertionSort titleLe ms, List.sorted_insertionSort titleLe ms⟩
  · intro hs m
    have hne : ¬ pyLower (pyStrip s) = "" := fun hl => hs (pyLower_eq_empty.mp hl)
    have hsf : searchFiltered ms s =
        ms.filter (fun m => pySub (pyLower (pyStrip s)) (pyLower m.title) ||
          pySub (pyLower (pyStrip s)) (pyLower m.notes)) := by
      simp [searchFiltered, hne]
    have hfm : filteredMovies ms s "All" "Title" =
        (searchFiltered ms s).insertionSort titleLe := rfl
    rw [hfm, List.mem_insertionSort, hsf, List.mem_filter]

/-- Witness for the amended C6 theorem at concrete search texts. -/
theorem query_search_amended_witness :
    ((filteredMovies [exZeta] "" "All" "Title").Perm [exZeta] ∧
      List.Sorted titleLe (filteredMovies [exZeta] "" "All" "Title")) ∧
    (exZeta ∈ filteredMovies [exZeta] "zet" "All" "Title" ↔
      (exZeta ∈ [exZeta] ∧ (pySub (pyLower (pyStrip "zet")) (pyLower exZeta.title) ||
        pySub (pyLower (pyStrip "zet")) (pyLower exZeta.notes)) = true)) :=
  ⟨(query_search_amended [exZeta] "").1 (by rfl),
    (query_search_amended [exZeta] "zet").2 (by decide) exZeta⟩

/-- Counterexample to C7: on the records [year "", year "0"] the Year
sort keys tie (an empty year is sorted as "0"), the stable sort keeps
the original order, and the empty-year record comes first — an
empty-year record does not always come last. -/
theorem year_empty_not_last :
    filteredMovies [exYearEmpty, exYearZero] "" "All" "Year" = [exYearEmpty, exYearZero] ∧
    exYearEmpty.year = "" ∧ exYearZero.year ≠ "" := by
  refine ⟨by decide, rfl, by decide⟩

/-- C7 (amended): the Year sort orders the result descending on the
year field compared as text with an empty year treated as "0"; hence
after an empty-year record only records whose year key is at most "0"
can appear — ordinary nonempty digit years sort strictly earlier, while
a year equal to "0" ties with empty years and keeps original relative
order. -/
theorem query_year_sort_amended (ms : List Movie) (s fv : String) :
    (filteredMovies ms s fv "Year").Perm (applyFilter (searchFiltered ms s) fv) ∧
    List.Sorted yearGe (filteredMovies ms s fv "Year") ∧
    (filteredMovies ms s fv "Year").Pairwise (fun a b => a.year = "" → pyStrLe (yearKey b) "0") := by
  have hfm : filteredMovies ms s fv "Year" =
      (applyFilter (searchFiltered ms s) fv).insertionSort yearGe := rfl
  have hsorted : List.Sorted yearGe (filteredMovies ms s fv "Year") := by
    rw [hfm]
    haveI : IsTotal Movie yearGe := ⟨fun a b => lexLeB_total _ _⟩
    haveI : IsTrans Movie yearGe := ⟨fun a b c h1 h2 => lexLeB_trans _ _ _ h2 h1⟩
    exact List.sorted_insertionSort yearGe _
  refine ⟨?_, hsorted, ?_⟩
  · rw [hfm]
    exact List.perm_insertionSort yearGe _
  · refine List.Pairwise.imp ?_ hsorted
    intro a b hab ha
    have hA : yearKey a = "0" := by simp [yearKey, ha]
    have hab2 : pyStrLe (yearKey b) (yearKey a) := hab
    rw [hA] at hab2
    exact hab2

/-- Witness for the amended C7 theorem at a concrete collection. -/
theorem query_year_sort_amended_witness :
    List.Sorted yearGe (filteredMovies [exYearEmpty, exYearZero] "" "All" "Year") :=
  (query_year_sort_amended [exYearEmpty, exYearZero] "" "All").2.1

/-- C8 (confirmed): the query returns its result while leaving the
state — in particular the underlying collection and its order —
unchanged, and for each sort mode the sort is stable: the filtered view
of every tie class of the sort key equals its view in the pre-sort
(searched-and-filtered) sequence, so records with equal keys keep their
original relative order. -/
theorem query_frame_stability (st : CatalogState) :
    (queryApp st).2 = st ∧
    (st.sortValue = "Title" → ∀ k : String,
      (queryApp st).1.filter (fun m => decide (pyLower m.title = k)) =
        (applyFilter (searchFiltered st.movies st.searchInput) st.filterValue).filter
          (fun m => decide (pyLower m.title = k))) ∧
    (st.sortValue = "Year" → ∀ k : String,
      (queryApp st).1.filter (fun m => decide (yearKey m = k)) =
        (applyFilter (searchFiltered st.movies st.searchInput) st.filterValue).filter
          (fun m => decide (yearKey m = k))) ∧
    (st.sortValue = "Rating" → ∀ k : ℚ,
      (queryApp st).1.filter (fun m => decide (m.rating = k)) =
        (applyFilter (searchFiltered st.movies st.searchInput) st.filterValue).filter
          (fun m => decide (m.rating = k))) := by
  refine ⟨rfl, ?_, ?_, ?_⟩
  · intro h k
    simp only [queryApp, filteredMovies, h]
    exact insertionSort_filter titleLe _
      (fun a b ha hb => by
        show pyStrLe (pyLower a.title) (pyLower b.title)
        rw [of_decide_eq_true ha, of_decide_eq_true hb]
        exact pyStrLe_refl _) _
  · intro h k
    simp only [queryApp, filteredMovies, h]
    exact insertionSort_filter yearGe _
      (fun a b ha hb => by
        show pyStrLe (yearKey b) (yearKey a)
        rw [of_decide_eq_true ha, of_decide_eq_true hb]
        exact pyStrLe_refl _) _
  · intro h k
    simp only [queryApp, filteredMovies, h]
    exact insertionSort_filter ratingGe _
      (fun a b ha hb => le_of_eq (by rw [of_decide_eq_true ha, of_decide_eq_true hb])) _

/-- Witness for the C8 theorem at a concrete state and tie class. -/
theorem query_frame_stability_witness :
    (queryApp exState).2 = exState ∧
    (queryApp exState).1.filter (fun m => decide (pyLower m.title = "zeta")) =
      (applyFilter (searchFiltered exState.movies exState.searchInput)
        exState.filterValue).filter (fun m => decide (pyLower m.title = "zeta")) :=
  ⟨(query_frame_stability exState).1, (query_frame_stability exState).2.1 rfl "zeta"⟩

/-- Counterexample to C9: deleting `exObjB` (object id 1) from a list
that also holds the value-equal but distinct object `exObjA` (id 0)
removes the first value-equal element — `exObjA` — and the record
object that was actually passed is still present afterwards. -/
theorem delete_not_by_identity :
    deleteMovie [exObjA, exObjB] exObjB = [exObjB] ∧ exObjB.ref ≠ exObjA.ref := by
  refine ⟨by decide, by decide⟩

/-- C9 (amended): `delete_movie` removes the first element that is the
same object as, or dataclass-value-equal to, the given record (Python's
`in` and `list.remove` compare with `==`, not identity); when nothing
matches the call is a silent no-op that leaves the collection
unchanged and raises nothing. -/
theorem deleteMovie_value_equality (ms : List ObjMovie) (m : ObjMovie) :
    deleteMovie ms m = ms.eraseP (pyEqTest m) ∧
    ((∀ x ∈ ms, pyEqTest m x = false) → deleteMovie ms m = ms) := by
  constructor
  · rw [deleteMovie]
    by_cases h : ms.any (pyEqTest m) = true
    · rw [if_pos h, pyListRemove_eq_eraseP]
    · rw [if_neg h]
      refine (eraseP_no_match _ _ ?_).symm
      intro a ha
      cases hb : pyEqTest m a with
      | false => rfl
      | true => exact absurd (List.any_eq_true.mpr ⟨a, ha, hb⟩) h
  · intro hnone
    have h : ¬ ms.any (pyEqTest m) = true := by
      intro hc
      obtain ⟨a, ha, hpa⟩ := List.any_eq_true.mp hc
      rw [hnone a ha] at hpa
      exact Bool.noConfusion hpa
    rw [deleteMovie, if_neg h]

/-- Witness for the amended C9 theorem: deleting a value-distinct
record is a no-op. -/
theorem deleteMovie_value_equality_witness :
    deleteMovie [exObjA] exObjC = List.eraseP (pyEqTest exObjC) [exObjA] ∧
    deleteMovie [exObjA] exObjC = [exObjA] :=
  ⟨(deleteMovie_value_equality [exObjA] exObjC).1,
    (deleteMovie_value_equality [exObjA] exObjC).2 (by decide)⟩

/-- C10 (confirmed): toggling `favorite` changes only the favorite
field, and toggling `watched` on a currently watched movie (so the new
value is false) changes only the watched field — in particular
`watchlist` is untouched in both cases. -/
theorem toggleFlag_frame (m : Movie) :
    ((toggleFlag m FlagField.favorite).favorite = !m.favorite ∧
      (toggleFlag m FlagField.favorite).title = m.title ∧
      (toggleFlag m FlagField.favorite).year = m.year ∧
      (toggleFlag m FlagField.favorite).rating = m.rating ∧
      (toggleFlag m FlagField.favorite).poster_url = m.poster_url ∧
      (toggleFlag m FlagField.favorite).watched = m.watched ∧
      (toggleFlag m FlagField.favorite).watchlist = m.watchlist ∧
      (toggleFlag m FlagField.favorite).trailer_url = m.trailer_url ∧
      (toggleFlag m FlagField.favorite).local_file = m.local_file ∧
      (toggleFlag m FlagField.favorite).notes = m.notes ∧
      (toggleFlag m FlagField.favorite).created_at = m.created_at) ∧
    (m.watched = true →
      ((toggleFlag m FlagField.watched).watched = false ∧
        (toggleFlag m FlagField.watched).watchlist = m.watchlist ∧
        (toggleFlag m FlagField.watched).title = m.title ∧
        (toggleFlag m FlagField.watched).year = m.year ∧
        (toggleFlag m FlagField.watched).rating = m.rating ∧
        (toggleFlag m FlagField.watched).poster_url = m.poster_url ∧
        (toggleFlag m FlagField.watched).favorite = m.favorite ∧
        (toggleFlag m FlagField.watched).trailer_url = m.trailer_url ∧
        (toggleFlag m FlagField.watched).local_file = m.local_file ∧
        (toggleFlag m FlagField.watched).notes = m.notes ∧
        (toggleFlag m FlagField.watched).created_at = m.created_at)) := by
  constructor
  · exact ⟨rfl, rfl, rfl, rfl, rfl, rfl, rfl, rfl, rfl, rfl, rfl⟩
  · intro hw
    simp [toggleFlag, hw]

/-- Witness for the C10 theorem on a watched movie. -/
theorem toggleFlag_frame_witness :
    (toggleFlag exWatched FlagField.favorite).favorite = !exWatched.favorite ∧
    (toggleFlag exWatched FlagField.watched).watchlist = exWatched.watchlist :=
  ⟨(toggleFlag_frame exWatched).1.1, ((toggleFlag_frame exWatched).2 rfl).2.1⟩
